import Mathlib

/-!
# Verification of the libsigrok APPA-DMM protocol engine

Shallow embedding of the APPA transport-protocol framer (`src/tp/appa.c`),
the APPA-DMM command codec and display-semantics interpreter
(`src/hardware/appa-dmm/protocol.c`, `packet.h`), together with theorems
settling the specification claims.

Bytes are modelled as `Nat` with explicit `% 256` where the C code relies
on `uint8_t` wrap-around; C `int` values are modelled as `Int`.
-/

/-! ## libsigrok return codes (from libsigrok.h, external to this repo's files) -/

def SR_OK : Int := 0
def SR_ERR_ARG : Int := -3
def SR_ERR_BUG : Int := -4
def SR_ERR_DATA : Int := -10
def SR_ERR_IO : Int := -11

/-! ## Transport-layer constants (src/tp/appa.h) -/

def SR_TP_APPA_MAX_DATA_SIZE : Nat := 64
def SR_TP_APPA_HEADER_SIZE : Nat := 4
def SR_TP_APPA_MAX_PAYLOAD_SIZE : Nat := 68
def SR_TP_APPA_MAX_FRAME_SIZE : Nat := 69
def SR_TP_APPA_START_BYTE : Nat := 0x55

/-- Modelled from the spec: `SR_TP_APPA_MAX_PACKET_SIZE` is used by
`sr_tp_appa_receive` (src/tp/appa.c lines 210 and 279) but its definition is
not among the provided headers; the spec gives the absolute maximum frame
size as 69 bytes (64 payload + 4 header + 1 checksum). -/
def SR_TP_APPA_MAX_PACKET_SIZE : Nat := 69

/-! ## Transport packet and framer state (src/tp/appa.h, src/tp/appa.c) -/

/-- `struct sr_tp_appa_packet`: the `data` list models the first `length`
bytes of the 64-byte `data` array (the bytes `memcpy`-ed by the receiver,
resp. the bytes transmitted by the sender). -/
structure sr_tp_appa_packet where
  command : Nat
  length : Nat
  data : List Nat
  deriving DecidableEq, Repr

/-- The receive-buffer part of `struct sr_tp_appa_inst`: `buffer_size` is the
length of the `buffer` list. -/
structure sr_tp_appa_inst where
  buffer : List Nat
  deriving DecidableEq, Repr

/-- Result of one `sr_tp_appa_receive` call: `TRUE` with a packet, `FALSE`
(no complete packet), or a negative `SR_ERR_...` code. -/
inductive TpReceiveResult where
  | packet (p : sr_tp_appa_packet)
  | none
  | err (code : Int)
  deriving DecidableEq, Repr

/-- `sr_tp_appa_checksum` (src/tp/appa.c lines 343-355): sums the given bytes
into a `uint8_t`, i.e. modulo 256. -/
def sr_tp_appa_checksum (data : List Nat) : Nat :=
  data.foldl (· + ·) 0 % 256

/-- The byte-scanning loop of `sr_tp_appa_receive` (src/tp/appa.c lines
225-283).  Processes input bytes one at a time against the accumulated
buffer; returns the buffer as left by the loop together with the call
result.  A `packet`/`err SR_ERR_IO` result corresponds to the `break`
statements, the `err SR_ERR_BUG` case to the early `return` of the overflow
guard (which resets the buffer itself, line 280).  The header-validation
gate (lines 227-241) either skips the byte — `Sum.inl` carries the buffer
to continue with, `[]` for the reset-and-continue branches — or lets it be
appended (`Sum.inr`). -/
def sr_tp_appa_receive_loop : List Nat → List Nat → (List Nat × TpReceiveResult)
  | [], buf => (buf, .none)
  | b :: rest, buf =>
    let gate : List Nat ⊕ Unit :=
      if buf.length < 1 then
        if b ≠ SR_TP_APPA_START_BYTE then .inl buf else .inr ()
      else if buf.length < 2 then
        if b ≠ SR_TP_APPA_START_BYTE then .inl [] else .inr ()
      else if buf.length < 4 then
        if b > SR_TP_APPA_MAX_DATA_SIZE then .inl [] else .inr ()
      else .inr ()
    match gate with
    | .inl buf0 => sr_tp_appa_receive_loop rest buf0
    | .inr () =>
      -- add data to buffer (line 244), then process (lines 247-282)
      let buf' := buf ++ [b]
      if buf'.length > 4 ∧ buf'.getD 3 0 + SR_TP_APPA_HEADER_SIZE + 1 = buf'.length then
        -- packet complete: validate checksum over the first `buffer[3]`
        -- bytes of the buffer (lines 256-258) against the trailing byte
        if sr_tp_appa_checksum (buf'.take (buf'.getD 3 0))
            = buf'.getD (buf'.length - 1) 0 then
          (buf', .packet
            { command := buf'.getD 2 0
              length := buf'.getD 3 0
              data := (buf'.drop 4).take (buf'.getD 3 0) })
        else
          (buf', .err SR_ERR_IO)
      else if buf'.length > SR_TP_APPA_MAX_PACKET_SIZE then
        ([], .err SR_ERR_BUG)
      else
        sr_tp_appa_receive_loop rest buf'

/-- `sr_tp_appa_receive` (src/tp/appa.c lines 203-290) applied to the bytes
of one non-blocking serial read.  After the scanning loop the function
unconditionally calls `sr_tp_appa_buffer_reset` (line 287), so the returned
instance state always has an empty buffer; the overflow-guard early return
(lines 279-282) resets the buffer as well. -/
def sr_tp_appa_receive (tpai : sr_tp_appa_inst) (input : List Nat) :
    sr_tp_appa_inst × TpReceiveResult :=
  let (_buf, retr) := sr_tp_appa_receive_loop input tpai.buffer
  (⟨[]⟩, retr)

/-- The byte stream written to the serial line by `sr_tp_appa_send`
(src/tp/appa.c lines 146-186).  The code fills `header[0..2]` and then
writes the length to `header[4]` (line 164) — one past the end of the
4-byte `header` array — leaving `header[3]` uninitialized; `uninit` models
that indeterminate stack byte.  The checksum (lines 168-169) is the
`uint8_t` sum of the two per-part checksums, i.e. the sum of the four
header bytes (including `uninit`) plus the payload bytes, modulo 256. -/
def sr_tp_appa_send_bytes (p : sr_tp_appa_packet) (uninit : Nat) : List Nat :=
  let header := [SR_TP_APPA_START_BYTE, SR_TP_APPA_START_BYTE, p.command, uninit]
  let payload := p.data.take p.length
  header ++ payload ++
    [(sr_tp_appa_checksum header + sr_tp_appa_checksum payload) % 256]

/-- A sequence of `sr_tp_appa_receive` calls, one per byte chunk handed over
by the serial source, threading the instance state through and collecting
each call's result. -/
def sr_tp_appa_receive_calls (tpai : sr_tp_appa_inst) :
    List (List Nat) → sr_tp_appa_inst × List TpReceiveResult
  | [] => (tpai, [])
  | chunk :: rest =>
    let (tpai', r) := sr_tp_appa_receive tpai chunk
    let (tpai'', rs) := sr_tp_appa_receive_calls tpai' rest
    (tpai'', r :: rs)

/-- Whether a receive call delivered a packet to the caller. -/
def TpReceiveResult.isPacket : TpReceiveResult → Bool
  | .packet _ => true
  | _ => false

/-! ## Claims C1-C4: the transport framer -/

/-- C1: the claim says a candidate frame is accepted exactly when its
trailing byte equals the additive sum mod 256 of the 4 header bytes
`0x55, 0x55, c, L` plus all `L` payload bytes.  The code instead validates
the trailing byte against the sum of only the first `L` bytes of the
buffered frame (`sr_tp_appa_checksum(buffer, buffer[3])`, appa.c lines
256-258).  Concretely: the frame `55 55 01 00 AB`, whose trailing byte
`0xAB` is the claimed checksum `(0x55+0x55+0x01+0x00) % 256`, is rejected
with `SR_ERR_IO`, while the frame `55 55 01 00 00`, whose trailing byte
differs from that sum, is accepted and delivered. -/
theorem C1_checksum_validated_over_wrong_range :
    (0x55 + 0x55 + 0x01 + 0x00) % 256 = 0xAB
    ∧ sr_tp_appa_receive ⟨[]⟩ [0x55, 0x55, 0x01, 0x00, 0xAB]
        = (⟨[]⟩, .err SR_ERR_IO)
    ∧ sr_tp_appa_receive ⟨[]⟩ [0x55, 0x55, 0x01, 0x00, 0x00]
        = (⟨[]⟩, .packet ⟨0x01, 0, []⟩) := by
  refine ⟨by decide, by decide, by decide⟩

/-- C2: the claim says feeding two checksum-valid frames (separated by
garbage without two consecutive `0x55`) to the framer yields exactly those
two frames under any chunking.  Take `F1 = 55 55 00 00 AA` and
`F2 = 55 55 01 00 AB` (both with the claimed additive checksum over
header+payload, empty garbage between them): handing `F1 ++ F2` to the
framer in a single call delivers zero frames — the
call stops with `SR_ERR_IO` at `F1`'s checksum byte (the code sums a
different byte range, appa.c lines 256-258) and dumps the remaining bytes
(line 285); and handing the same stream in 1-byte chunks also delivers zero
frames, because every call ends in `sr_tp_appa_buffer_reset` (line 287). -/
theorem C2_resynchronization_fails :
    (0x55 + 0x55 + 0x00 + 0x00) % 256 = 0xAA
    ∧ (0x55 + 0x55 + 0x01 + 0x00) % 256 = 0xAB
    ∧ sr_tp_appa_receive ⟨[]⟩
        ([0x55, 0x55, 0x00, 0x00, 0xAA] ++ [0x55, 0x55, 0x01, 0x00, 0xAB])
        = (⟨[]⟩, .err SR_ERR_IO)
    ∧ sr_tp_appa_receive_calls ⟨[]⟩
        (([0x55, 0x55, 0x00, 0x00, 0xAA] ++ [0x55, 0x55, 0x01, 0x00, 0xAB]).map
          (fun b => [b]))
        = (⟨[]⟩, List.replicate 10 .none) := by
  refine ⟨by decide, by decide, by decide, by decide⟩

/-- C3: the claim says a partially accumulated frame survives the end of a
receive call so the frame can be completed by later calls.  In the code
every call ends with `sr_tp_appa_buffer_reset` (appa.c line 287), so the
returned state always has an empty buffer; consequently the frame
`55 55 01 01 00 55` (which the code accepts when handed over whole) is
never delivered when split after its fifth byte — both calls of the split
return `FALSE`. -/
theorem C3_partial_state_not_preserved :
    (∀ (tpai : sr_tp_appa_inst) (input : List Nat),
      (sr_tp_appa_receive tpai input).1.buffer = [])
    ∧ sr_tp_appa_receive ⟨[]⟩ [0x55, 0x55, 0x01, 0x01, 0x00, 0x55]
        = (⟨[]⟩, .packet ⟨0x01, 1, [0x00]⟩)
    ∧ sr_tp_appa_receive_calls ⟨[]⟩ [[0x55, 0x55, 0x01, 0x01, 0x00], [0x55]]
        = (⟨[]⟩, [.none, .none]) := by
  refine ⟨fun tpai input => rfl, by decide, by decide⟩

set_option maxRecDepth 4096 in
/-- C4: the claim says sending a packet and feeding the emitted bytes back
through the framer reproduces the packet.  `sr_tp_appa_send` writes the
length byte to `header[4]`, one past the end of the 4-byte header array
(appa.c line 164), so the transmitted length position carries an
uninitialized byte.  For the packet `command = 0x01` (Read Display),
empty payload — whose catalog request size is 0 — the framer fails to
deliver any packet from the transmitted bytes, whatever value that
uninitialized byte took. -/
theorem C4_send_receive_roundtrip_fails (uninit : Nat) (h : uninit < 256) :
    (sr_tp_appa_receive ⟨[]⟩
      (sr_tp_appa_send_bytes ⟨0x01, 0, []⟩ uninit)).2.isPacket = false := by
  revert uninit
  decide

/-- Witness for C4's theorem at the concrete uninitialized byte 0. -/
theorem C4_send_receive_roundtrip_fails_witness :
    (sr_tp_appa_receive ⟨[]⟩
      (sr_tp_appa_send_bytes ⟨0x01, 0, []⟩ 0)).2.isPacket = false :=
  C4_send_receive_roundtrip_fails 0 (by decide)

/-! ## Command codes (protocol.h, enum appadmm_command_e) -/

def APPADMM_COMMAND_READ_INFORMATION : Nat := 0x00
def APPADMM_COMMAND_READ_DISPLAY : Nat := 0x01
def APPADMM_COMMAND_READ_PROTOCOL_VERSION : Nat := 0x03
def APPADMM_COMMAND_READ_BATTERY_LIFE : Nat := 0x04
def APPADMM_COMMAND_WRITE_UART_CONFIGURATION : Nat := 0x05
def APPADMM_COMMAND_CAL_READING : Nat := 0x10
def APPADMM_COMMAND_READ_MEMORY : Nat := 0x1a
def APPADMM_COMMAND_READ_HARMONICS_DATA : Nat := 0x1b
def APPADMM_COMMAND_FAILURE : Nat := 0x70
def APPADMM_COMMAND_SUCCESS : Nat := 0x7f

/-! ## Frame catalog (protocol.h response-size constants, protocol.c
lines 1232-1299) -/

def APPADMM_FRAME_DATA_SIZE_RESPONSE_READ_INFORMATION : Int := 52
def APPADMM_FRAME_DATA_SIZE_RESPONSE_READ_DISPLAY : Int := 12
def APPADMM_FRAME_DATA_SIZE_RESPONSE_READ_PROTOCOL_VERSION : Int := 4
def APPADMM_FRAME_DATA_SIZE_RESPONSE_READ_BATTERY_LIFE : Int := 4
def APPADMM_FRAME_DATA_SIZE_RESPONSE_CAL_READING : Int := 23
def APPADMM_FRAME_DATA_SIZE_RESPONSE_READ_MEMORY : Int := 64
def APPADMM_FRAME_DATA_SIZE_RESPONSE_READ_HARMONICS_DATA : Int := 50
def APPADMM_FRAME_DATA_SIZE_RESPONSE_FAILURE : Int := 1
def APPADMM_FRAME_DATA_SIZE_RESPONSE_SUCCESS : Int := 0

/-- `appadmm_get_response_size` (protocol.c lines 1232-1272): catalog
lookup of the fixed (or variable-capped) response payload size; commands
with no defined response size — including the write/calibration/OTA
commands that answer with SUCCESS/FAILURE frames — fall to the safe
default `SR_ERR_DATA`. -/
def appadmm_get_response_size (c : Nat) : Int :=
  if c = APPADMM_COMMAND_READ_INFORMATION then
    APPADMM_FRAME_DATA_SIZE_RESPONSE_READ_INFORMATION
  else if c = APPADMM_COMMAND_READ_DISPLAY then
    APPADMM_FRAME_DATA_SIZE_RESPONSE_READ_DISPLAY
  else if c = APPADMM_COMMAND_READ_PROTOCOL_VERSION then
    APPADMM_FRAME_DATA_SIZE_RESPONSE_READ_PROTOCOL_VERSION
  else if c = APPADMM_COMMAND_READ_BATTERY_LIFE then
    APPADMM_FRAME_DATA_SIZE_RESPONSE_READ_BATTERY_LIFE
  else if c = APPADMM_COMMAND_CAL_READING then
    APPADMM_FRAME_DATA_SIZE_RESPONSE_CAL_READING
  else if c = APPADMM_COMMAND_READ_MEMORY then
    APPADMM_FRAME_DATA_SIZE_RESPONSE_READ_MEMORY
  else if c = APPADMM_COMMAND_READ_HARMONICS_DATA then
    APPADMM_FRAME_DATA_SIZE_RESPONSE_READ_HARMONICS_DATA
  else if c = APPADMM_COMMAND_FAILURE then
    APPADMM_FRAME_DATA_SIZE_RESPONSE_FAILURE
  else if c = APPADMM_COMMAND_SUCCESS then
    APPADMM_FRAME_DATA_SIZE_RESPONSE_SUCCESS
  else
    SR_ERR_DATA

/-- `appadmm_is_response_size_valid` (protocol.c lines 1280-1299): a
negative catalog lookup is propagated; Read Memory accepts any size up to
the catalog maximum; every other command requires an exact match. -/
def appadmm_is_response_size_valid (c : Nat) (arg_size : Int) : Int :=
  let size := appadmm_get_response_size c
  if size < SR_OK then size
  else if c = APPADMM_COMMAND_READ_MEMORY ∧ arg_size ≤ size then SR_OK
  else if size = arg_size then SR_OK
  else SR_ERR_DATA

/-! ## Read Display decoder (protocol.c lines 986-1033) -/

/-- Modelled from the spec: `read_i24le_inc` is a libsigrok primitive
(libsigrok-internal.h, not among the provided sources); per the spec it
reads a little-endian 24-bit integer, sign-extending from bit 23. -/
def read_i24le (b0 b1 b2 : Nat) : Int :=
  let v := b0 + 256 * b1 + 65536 * b2
  if v < 0x800000 then (v : Int) else (v : Int) - 0x1000000

/-- `struct appadmm_display_data_s` (protocol.h lines 590-598). -/
structure appadmm_display_data_s where
  reading : Int
  dot : Nat
  unit : Nat
  data_content : Nat
  overload : Nat
  deriving DecidableEq, Repr

/-- `struct appadmm_response_data_read_display_s` (protocol.h lines
628-637). -/
structure appadmm_response_data_read_display_s where
  function_code : Nat
  auto_test : Nat
  range_code : Nat
  auto_range : Nat
  main_display_data : appadmm_display_data_s
  sub_display_data : appadmm_display_data_s
  deriving DecidableEq, Repr

/-- `appadmm_dec_read_display` (protocol.c lines 986-1033): gate on the
command and the catalog size, then parse the 12 payload bytes with the
`& 0x7f`/`>> 7`, `& 0x7`/`>> 3` masks and two sign-extended i24 reads of
the source. -/
def appadmm_dec_read_display (p : sr_tp_appa_packet) :
    Except Int appadmm_response_data_read_display_s :=
  if p.command ≠ APPADMM_COMMAND_READ_DISPLAY then
    .error SR_ERR_DATA
  else if appadmm_is_response_size_valid APPADMM_COMMAND_READ_DISPLAY
      (p.length : Int) ≠ SR_OK then
    .error SR_ERR_DATA
  else
    let d := fun i => p.data.getD i 0
    .ok
      { function_code := d 0 &&& 0x7f
        auto_test := d 0 >>> 7
        range_code := d 1 &&& 0x7f
        auto_range := d 1 >>> 7
        main_display_data :=
          { reading := read_i24le (d 2) (d 3) (d 4)
            dot := d 5 &&& 0x7
            unit := d 5 >>> 3
            data_content := d 6 &&& 0x7f
            overload := d 6 >>> 7 }
        sub_display_data :=
          { reading := read_i24le (d 7) (d 8) (d 9)
            dot := d 10 &&& 0x7
            unit := d 10 >>> 3
            data_content := d 11 &&& 0x7f
            overload := d 11 >>> 7 } }

/-- Evaluation of the response-size validator at Read Display: only the
exact catalog size 12 is accepted. -/
theorem appadmm_is_response_size_valid_read_display (s : Int) :
    appadmm_is_response_size_valid APPADMM_COMMAND_READ_DISPLAY s
      = if (12 : Int) = s then SR_OK else SR_ERR_DATA := by
  have h : appadmm_get_response_size APPADMM_COMMAND_READ_DISPLAY = 12 := rfl
  have hc : ¬ (APPADMM_COMMAND_READ_DISPLAY = APPADMM_COMMAND_READ_MEMORY
      ∧ s ≤ 12) := fun hand => by exact absurd hand.1 (by decide)
  simp only [appadmm_is_response_size_valid, h]
  rw [if_neg (by decide), if_neg hc]

/-- Evaluation of the response-size validator at Read Memory: any size up
to the catalog maximum 64 is accepted. -/
theorem appadmm_is_response_size_valid_read_memory (s : Int) :
    appadmm_is_response_size_valid APPADMM_COMMAND_READ_MEMORY s
      = if s ≤ 64 then SR_OK else SR_ERR_DATA := by
  have h : appadmm_get_response_size APPADMM_COMMAND_READ_MEMORY = 64 := rfl
  simp only [appadmm_is_response_size_valid, h]
  rw [if_neg (by decide)]
  by_cases hs : s ≤ 64
  · rw [if_pos ⟨trivial, hs⟩, if_pos hs]
  · rw [if_neg (fun hand => hs hand.2), if_neg hs,
      if_neg (fun he => hs (le_of_eq he.symm))]

set_option maxRecDepth 8192 in
/-- For a byte value, the source's mask/shift operations coincide with the
spec's bit-range reads expressed through `%` and `/`. -/
theorem byte_mask_shift_eq :
    ∀ b < 256, b &&& 0x7f = b % 2 ^ 7 ∧ b >>> 7 = b / 2 ^ 7
      ∧ b &&& 0x7 = b % 2 ^ 3 ∧ b >>> 3 = b / 2 ^ 3 := by decide

/-- The source's i24 read agrees with the spec's description: interpret the
three bytes as a little-endian 24-bit word and sign-extend from bit 23
(two's complement). -/
theorem read_i24le_eq_spec (b0 b1 b2 : Nat)
    (_h0 : b0 < 256) (_h1 : b1 < 256) (_h2 : b2 < 256) :
    read_i24le b0 b1 b2 =
      (if 2 ^ 23 ≤ b0 + 2 ^ 8 * b1 + 2 ^ 16 * b2 then
        ((b0 + 2 ^ 8 * b1 + 2 ^ 16 * b2 : Nat) : Int) - 2 ^ 24
      else ((b0 + 2 ^ 8 * b1 + 2 ^ 16 * b2 : Nat) : Int)) := by
  unfold read_i24le
  split_ifs <;> push_cast <;> omega

/-- Every position of a list of bytes (default 0 beyond the end) is a byte
value. -/
theorem list_getD_lt_256 :
    ∀ (l : List Nat), (∀ b ∈ l, b < 256) → ∀ i, l.getD i 0 < 256
  | [], _, _ => by simp [List.getD]
  | b :: _, h, 0 => h b (by simp)
  | _ :: t, h, i + 1 =>
    list_getD_lt_256 t (fun x hx => h x (by simp [hx])) i

/-- C5: the Read Display decoder fails with a data error whenever the
packet command is not Read Display or the length differs from the catalog
size (12), and otherwise succeeds, parsing the 12 payload bytes exactly as
the claimed layout: byte0 = function_code (bits 0-6) + auto_test (bit 7),
byte1 = range_code (bits 0-6) + auto_range (bit 7), bytes 2-4 = primary
reading as sign-extended little-endian i24, byte5 = dot (bits 0-2) + unit
(bits 3-7), byte6 = data_content (bits 0-6) + overload (bit 7), and the
same 5-byte layout at bytes 7-11 for the secondary display. -/
theorem C5_read_display_decoder (p : sr_tp_appa_packet)
    (hb : ∀ b ∈ p.data, b < 256) :
    ((p.command ≠ APPADMM_COMMAND_READ_DISPLAY
        ∨ (p.length : Int) ≠ APPADMM_FRAME_DATA_SIZE_RESPONSE_READ_DISPLAY) →
      appadmm_dec_read_display p = .error SR_ERR_DATA)
    ∧ (p.command = APPADMM_COMMAND_READ_DISPLAY →
       (p.length : Int) = APPADMM_FRAME_DATA_SIZE_RESPONSE_READ_DISPLAY →
      appadmm_dec_read_display p = .ok
        { function_code := p.data.getD 0 0 % 2 ^ 7
          auto_test := p.data.getD 0 0 / 2 ^ 7
          range_code := p.data.getD 1 0 % 2 ^ 7
          auto_range := p.data.getD 1 0 / 2 ^ 7
          main_display_data :=
            { reading :=
                (if 2 ^ 23 ≤ p.data.getD 2 0 + 2 ^ 8 * p.data.getD 3 0
                    + 2 ^ 16 * p.data.getD 4 0 then
                  ((p.data.getD 2 0 + 2 ^ 8 * p.data.getD 3 0
                    + 2 ^ 16 * p.data.getD 4 0 : Nat) : Int) - 2 ^ 24
                else ((p.data.getD 2 0 + 2 ^ 8 * p.data.getD 3 0
                    + 2 ^ 16 * p.data.getD 4 0 : Nat) : Int))
              dot := p.data.getD 5 0 % 2 ^ 3
              unit := p.data.getD 5 0 / 2 ^ 3
              data_content := p.data.getD 6 0 % 2 ^ 7
              overload := p.data.getD 6 0 / 2 ^ 7 }
          sub_display_data :=
            { reading :=
                (if 2 ^ 23 ≤ p.data.getD 7 0 + 2 ^ 8 * p.data.getD 8 0
                    + 2 ^ 16 * p.data.getD 9 0 then
                  ((p.data.getD 7 0 + 2 ^ 8 * p.data.getD 8 0
                    + 2 ^ 16 * p.data.getD 9 0 : Nat) : Int) - 2 ^ 24
                else ((p.data.getD 7 0 + 2 ^ 8 * p.data.getD 8 0
                    + 2 ^ 16 * p.data.getD 9 0 : Nat) : Int))
              dot := p.data.getD 10 0 % 2 ^ 3
              unit := p.data.getD 10 0 / 2 ^ 3
              data_content := p.data.getD 11 0 % 2 ^ 7
              overload := p.data.getD 11 0 / 2 ^ 7 } }) := by
  have hbyte := fun i => list_getD_lt_256 p.data hb i
  have hops := fun i => byte_mask_shift_eq (p.data.getD i 0) (hbyte i)
  constructor
  · intro herr
    unfold appadmm_dec_read_display
    by_cases hc : p.command = APPADMM_COMMAND_READ_DISPLAY
    · have hl : (p.length : Int)
          ≠ APPADMM_FRAME_DATA_SIZE_RESPONSE_READ_DISPLAY := by
        rcases herr with hc' | hl
        · exact absurd hc hc'
        · exact hl
      have hvne : appadmm_is_response_size_valid APPADMM_COMMAND_READ_DISPLAY
          (p.length : Int) ≠ SR_OK := by
        rw [appadmm_is_response_size_valid_read_display,
          if_neg (fun h => hl (h.symm.trans rfl))]
        decide
      rw [if_neg (fun h => h hc), if_pos hvne]
    · rw [if_pos hc]
  · intro hc hl
    have hveq : appadmm_is_response_size_valid APPADMM_COMMAND_READ_DISPLAY
        (p.length : Int) = SR_OK := by
      rw [appadmm_is_response_size_valid_read_display,
        if_pos (show (12 : Int) = (p.length : Int) by rw [hl]; rfl)]
    unfold appadmm_dec_read_display
    rw [if_neg (fun h => h hc), if_neg (fun h => h hveq)]
    simp only [Except.ok.injEq, appadmm_response_data_read_display_s.mk.injEq,
      appadmm_display_data_s.mk.injEq]
    exact ⟨(hops 0).1, (hops 0).2.1, (hops 1).1, (hops 1).2.1,
      ⟨read_i24le_eq_spec _ _ _ (hbyte 2) (hbyte 3) (hbyte 4),
        (hops 5).2.2.1, (hops 5).2.2.2, (hops 6).1, (hops 6).2.1⟩,
      ⟨read_i24le_eq_spec _ _ _ (hbyte 7) (hbyte 8) (hbyte 9),
        (hops 10).2.2.1, (hops 10).2.2.2, (hops 11).1, (hops 11).2.1⟩⟩

/-- Witness for C5 at a concrete packet: command Read Display, length 12,
payload `81 80 FF FF FF 0A 85 14 00 80 29 81`; the decoder succeeds and
the parsed layout evaluates as claimed. -/
theorem C5_read_display_decoder_witness :
    appadmm_dec_read_display
        ⟨0x01, 12, [0x81, 0x80, 0xFF, 0xFF, 0xFF, 0x0A, 0x85, 0x14, 0x00,
          0x80, 0x29, 0x81]⟩
      = .ok
        { function_code := 0x01
          auto_test := 1
          range_code := 0
          auto_range := 1
          main_display_data :=
            { reading := -1, dot := 2, unit := 1, data_content := 5,
              overload := 1 }
          sub_display_data :=
            { reading := 0x800014 - 0x1000000, dot := 1, unit := 5,
              data_content := 1, overload := 1 } } := by
  have h := (C5_read_display_decoder
    ⟨0x01, 12, [0x81, 0x80, 0xFF, 0xFF, 0xFF, 0x0A, 0x85, 0x14, 0x00,
      0x80, 0x29, 0x81]⟩ (by decide)).2 rfl (by decide)
  rw [h]
  rfl

/-- C8: the response-size validator accepts exactly when the command is
Read Memory and the size is at most the catalog maximum, or the size
equals the catalog size exactly; whenever it does not accept — in
particular for every command with no defined response size — it returns a
negative `SR_ERR_...` code. -/
theorem C8_response_size_validator (c : Nat) (size : Int) :
    (appadmm_is_response_size_valid c size = SR_OK ↔
      ((c = APPADMM_COMMAND_READ_MEMORY
          ∧ size ≤ APPADMM_FRAME_DATA_SIZE_RESPONSE_READ_MEMORY)
        ∨ (0 ≤ appadmm_get_response_size c
          ∧ size = appadmm_get_response_size c)))
    ∧ (appadmm_is_response_size_valid c size = SR_OK
        ∨ appadmm_is_response_size_valid c size < 0) := by
  have hmem : c = APPADMM_COMMAND_READ_MEMORY →
      appadmm_get_response_size c
        = APPADMM_FRAME_DATA_SIZE_RESPONSE_READ_MEMORY := by
    intro h; subst h; rfl
  simp only [appadmm_is_response_size_valid, SR_OK, SR_ERR_DATA,
    APPADMM_FRAME_DATA_SIZE_RESPONSE_READ_MEMORY] at *
  split_ifs with h1 h2 h3
  · refine ⟨⟨fun h => absurd h (by omega), ?_⟩, Or.inr h1⟩
    rintro (⟨hc, _⟩ | ⟨h0, _⟩)
    · have := hmem hc; omega
    · omega
  · exact ⟨⟨fun _ => Or.inl ⟨h2.1, by have := hmem h2.1; omega⟩,
      fun _ => rfl⟩, Or.inl rfl⟩
  · exact ⟨⟨fun _ => Or.inr ⟨by omega, h3.symm⟩, fun _ => rfl⟩, Or.inl rfl⟩
  · refine ⟨⟨fun h => absurd h (by norm_num), ?_⟩, Or.inr (by norm_num)⟩
    rintro (⟨hc, hsz⟩ | ⟨h0, hsz⟩)
    · have := hmem hc; exact absurd ⟨hc, by omega⟩ h2
    · exact h3 hsz.symm

/-! ## Read Memory decoder (protocol.c lines 1112-1140) -/

/-- Size in bytes of the Read Memory response record's `data` array
(`sizeof(arg_read_memory->data)` in protocol.c line 1130).  Modelled from
the spec: the `struct appadmm_response_data_read_memory_s` definition is
not among the provided sources; per the spec the Read Memory response
payload is "variable ≤ 64 bytes". -/
def APPADMM_READ_MEMORY_DATA_ARRAY_SIZE : Nat := 64

/-- The Read Memory response record: `data` models the bytes actually
written by the decoder's copy loop (one entry per executed loop
iteration), `data_length` the declared length stored alongside. -/
structure appadmm_response_data_read_memory_s where
  data_length : Nat
  data : List Nat
  deriving DecidableEq, Repr

/-- `appadmm_dec_read_memory` (protocol.c lines 1112-1140): gate on the
command, the catalog size (≤ 64 for Read Memory) and the record's array
size, then copy exactly `length` bytes. -/
def appadmm_dec_read_memory (p : sr_tp_appa_packet) :
    Except Int appadmm_response_data_read_memory_s :=
  if p.command ≠ APPADMM_COMMAND_READ_MEMORY then
    .error SR_ERR_DATA
  else if appadmm_is_response_size_valid APPADMM_COMMAND_READ_MEMORY
      (p.length : Int) ≠ SR_OK then
    .error SR_ERR_DATA
  else if p.length > APPADMM_READ_MEMORY_DATA_ARRAY_SIZE then
    .error SR_ERR_DATA
  else
    .ok
      { data_length := p.length
        data := (List.range p.length).map (fun i => p.data.getD i 0) }

/-- C10: whenever the declared length exceeds the 64-byte data array, the
Read Memory decoder returns a data error without copying anything; on the
success path the copy loop writes exactly the indices below the declared
length, which is at most 64 — so no write lands outside the record's data
array. -/
theorem C10_read_memory_no_buffer_overflow (p : sr_tp_appa_packet) :
    (p.length > APPADMM_READ_MEMORY_DATA_ARRAY_SIZE →
      appadmm_dec_read_memory p = .error SR_ERR_DATA)
    ∧ (∀ r, appadmm_dec_read_memory p = .ok r →
        r.data.length = p.length
        ∧ r.data.length ≤ APPADMM_READ_MEMORY_DATA_ARRAY_SIZE) := by
  constructor
  · intro hlen
    unfold appadmm_dec_read_memory
    by_cases hc : p.command = APPADMM_COMMAND_READ_MEMORY
    · have hvne : appadmm_is_response_size_valid APPADMM_COMMAND_READ_MEMORY
          (p.length : Int) ≠ SR_OK := by
        rw [appadmm_is_response_size_valid_read_memory,
          if_neg (show ¬ ((p.length : Int) ≤ 64) by
            simp only [APPADMM_READ_MEMORY_DATA_ARRAY_SIZE] at hlen; omega)]
        decide
      rw [if_neg (fun h => h hc), if_pos hvne]
    · rw [if_pos hc]
  · intro r hr
    unfold appadmm_dec_read_memory at hr
    by_cases hc : p.command = APPADMM_COMMAND_READ_MEMORY
    · rw [if_neg (fun h => h hc)] at hr
      by_cases hv : appadmm_is_response_size_valid APPADMM_COMMAND_READ_MEMORY
          (p.length : Int) ≠ SR_OK
      · rw [if_pos hv] at hr
        exact absurd hr (by simp)
      · rw [if_neg hv] at hr
        by_cases h64 : p.length > APPADMM_READ_MEMORY_DATA_ARRAY_SIZE
        · rw [if_pos h64] at hr
          exact absurd hr (by simp)
        · rw [if_neg h64] at hr
          have hr' := (Except.ok.injEq _ _).mp hr
          constructor
          · rw [← hr']
            simp
          · rw [← hr']
            simp only [List.length_map, List.length_range]
            omega
    · rw [if_pos hc] at hr
      exact absurd hr (by simp)

/-- Witness for C10: a packet declaring 70 payload bytes is rejected, and
the decoder's success path on a 3-byte packet copies exactly 3 bytes. -/
theorem C10_read_memory_no_buffer_overflow_witness :
    appadmm_dec_read_memory ⟨0x1a, 70, []⟩ = .error SR_ERR_DATA
    ∧ ((⟨3, [1, 2, 3]⟩ : appadmm_response_data_read_memory_s).data.length = 3
      ∧ (⟨3, [1, 2, 3]⟩ : appadmm_response_data_read_memory_s).data.length
          ≤ APPADMM_READ_MEMORY_DATA_ARRAY_SIZE) :=
  ⟨(C10_read_memory_no_buffer_overflow ⟨0x1a, 70, []⟩).1 (by decide),
    (C10_read_memory_no_buffer_overflow ⟨0x1a, 3, [1, 2, 3]⟩).2
      ⟨3, [1, 2, 3]⟩ (by rfl)⟩

/-! ## Display semantics interpreter (protocol.c lines 163-694) -/

/-- Wordcode boundary and the wordcodes the interpreter branches on
(protocol.h `enum appadmm_wordcode_e`, `APPADMM_WORDCODE_TABLE_MIN`). -/
def APPADMM_WORDCODE_TABLE_MIN : Int := 0x700000
def APPADMM_WORDCODE_DASH : Int := 0x700014
def APPADMM_WORDCODE_DASH1 : Int := 0x700015
def APPADMM_WORDCODE_DASH2 : Int := 0x700017

/-- `appadmm_is_wordcode` (protocol.c lines 1412-1415). -/
def appadmm_is_wordcode (arg_wordcode : Int) : Bool :=
  arg_wordcode ≥ APPADMM_WORDCODE_TABLE_MIN

/-- `appadmm_is_wordcode_dash` (protocol.c lines 1424-1430). -/
def appadmm_is_wordcode_dash (arg_wordcode : Int) : Bool :=
  arg_wordcode == APPADMM_WORDCODE_DASH
    || arg_wordcode == APPADMM_WORDCODE_DASH1
    || arg_wordcode == APPADMM_WORDCODE_DASH2

/-- Dot positions (protocol.h `enum appadmm_dot_e`). -/
def APPADMM_DOT_NONE : Nat := 0x00
def APPADMM_DOT_9999_9 : Nat := 0x01
def APPADMM_DOT_999_99 : Nat := 0x02
def APPADMM_DOT_99_999 : Nat := 0x03
def APPADMM_DOT_9_9999 : Nat := 0x04

/-- Units (protocol.h `enum appadmm_unit_e`). -/
def APPADMM_UNIT_NONE : Nat := 0x00
def APPADMM_UNIT_V : Nat := 0x01
def APPADMM_UNIT_MV : Nat := 0x02
def APPADMM_UNIT_A : Nat := 0x03
def APPADMM_UNIT_MA : Nat := 0x04
def APPADMM_UNIT_DB : Nat := 0x05
def APPADMM_UNIT_DBM : Nat := 0x06
def APPADMM_UNIT_MF : Nat := 0x07
def APPADMM_UNIT_UF : Nat := 0x08
def APPADMM_UNIT_NF : Nat := 0x09
def APPADMM_UNIT_GOHM : Nat := 0x0a
def APPADMM_UNIT_MOHM : Nat := 0x0b
def APPADMM_UNIT_KOHM : Nat := 0x0c
def APPADMM_UNIT_OHM : Nat := 0x0d
def APPADMM_UNIT_PERCENT : Nat := 0x0e
def APPADMM_UNIT_MHZ : Nat := 0x0f
def APPADMM_UNIT_KHZ : Nat := 0x10
def APPADMM_UNIT_HZ : Nat := 0x11
def APPADMM_UNIT_DEGC : Nat := 0x12
def APPADMM_UNIT_DEGF : Nat := 0x13
def APPADMM_UNIT_SEC : Nat := 0x14
def APPADMM_UNIT_MS : Nat := 0x15
def APPADMM_UNIT_US : Nat := 0x16
def APPADMM_UNIT_NS : Nat := 0x17
def APPADMM_UNIT_UA : Nat := 0x18
def APPADMM_UNIT_MIN : Nat := 0x19
def APPADMM_UNIT_KW : Nat := 0x1a
def APPADMM_UNIT_PF : Nat := 0x1b

/-- Data contents the interpreter branches on (protocol.h
`enum appadmm_data_content_e`). -/
def APPADMM_DATA_CONTENT_REL_DELTA : Nat := 0x0a
def APPADMM_DATA_CONTENT_REL_PERCENT : Nat := 0x0b
def APPADMM_DATA_CONTENT_MAXIMUM : Nat := 0x0d
def APPADMM_DATA_CONTENT_MINIMUM : Nat := 0x0e
def APPADMM_DATA_CONTENT_AVERAGE : Nat := 0x0f
def APPADMM_DATA_CONTENT_PEAK_HOLD_MAX : Nat := 0x10
def APPADMM_DATA_CONTENT_PEAK_HOLD_MIN : Nat := 0x11
def APPADMM_DATA_CONTENT_AUTO_HOLD : Nat := 0x14
def APPADMM_DATA_CONTENT_HOLD : Nat := 0x1a

/-- Auto-range / overload field values (protocol.h). -/
def APPADMM_AUTO_RANGE : Nat := 0x01
def APPADMM_OVERLOAD : Nat := 0x01

/-- Function codes the interpreter branches on (protocol.h
`enum appadmm_functioncode_e`). -/
def APPADMM_FUNCTIONCODE_AC_V : Nat := 0x01
def APPADMM_FUNCTIONCODE_DC_V : Nat := 0x02
def APPADMM_FUNCTIONCODE_AC_MV : Nat := 0x03
def APPADMM_FUNCTIONCODE_DC_MV : Nat := 0x04
def APPADMM_FUNCTIONCODE_CONTINUITY : Nat := 0x06
def APPADMM_FUNCTIONCODE_DIODE : Nat := 0x07
def APPADMM_FUNCTIONCODE_AC_A : Nat := 0x09
def APPADMM_FUNCTIONCODE_DC_A : Nat := 0x0a
def APPADMM_FUNCTIONCODE_AC_MA : Nat := 0x0b
def APPADMM_FUNCTIONCODE_DC_MA : Nat := 0x0c
def APPADMM_FUNCTIONCODE_AC_DC_V : Nat := 0x15
def APPADMM_FUNCTIONCODE_AC_DC_MV : Nat := 0x16
def APPADMM_FUNCTIONCODE_AC_DC_A : Nat := 0x17
def APPADMM_FUNCTIONCODE_AC_DC_MA : Nat := 0x18
def APPADMM_FUNCTIONCODE_LPF_V : Nat := 0x19
def APPADMM_FUNCTIONCODE_LPF_MV : Nat := 0x1a
def APPADMM_FUNCTIONCODE_LPF_A : Nat := 0x1b
def APPADMM_FUNCTIONCODE_LPF_MA : Nat := 0x1c
def APPADMM_FUNCTIONCODE_AC_UA : Nat := 0x1d
def APPADMM_FUNCTIONCODE_DC_UA : Nat := 0x1e
def APPADMM_FUNCTIONCODE_DC_A_OUT : Nat := 0x1f
def APPADMM_FUNCTIONCODE_DC_A_OUT_SLOW_LINEAR : Nat := 0x20
def APPADMM_FUNCTIONCODE_DC_A_OUT_FAST_LINEAR : Nat := 0x21
def APPADMM_FUNCTIONCODE_DC_A_OUT_SLOW_STEP : Nat := 0x22
def APPADMM_FUNCTIONCODE_DC_A_OUT_FAST_STEP : Nat := 0x23
def APPADMM_FUNCTIONCODE_LOOP_POWER : Nat := 0x24
def APPADMM_FUNCTIONCODE_VOLT_SENSE : Nat := 0x26
def APPADMM_FUNCTIONCODE_LOZ_AC_V : Nat := 0x2b
def APPADMM_FUNCTIONCODE_LOZ_DC_V : Nat := 0x2c
def APPADMM_FUNCTIONCODE_LOZ_AC_DC_V : Nat := 0x2d
def APPADMM_FUNCTIONCODE_LOZ_LPF_V : Nat := 0x2e
def APPADMM_FUNCTIONCODE_AC_W : Nat := 0x32
def APPADMM_FUNCTIONCODE_DC_W : Nat := 0x33
def APPADMM_FUNCTIONCODE_FLEX_AC_A : Nat := 0x35
def APPADMM_FUNCTIONCODE_FLEX_LPF_A : Nat := 0x36
def APPADMM_FUNCTIONCODE_FLEX_PEAK_HOLD_A : Nat := 0x37
def APPADMM_FUNCTIONCODE_V_HARM : Nat := 0x39
def APPADMM_FUNCTIONCODE_INRUSH : Nat := 0x3a
def APPADMM_FUNCTIONCODE_A_HARM : Nat := 0x3b
def APPADMM_FUNCTIONCODE_FLEX_INRUSH : Nat := 0x3c
def APPADMM_FUNCTIONCODE_FLEX_A_HARM : Nat := 0x3d
def APPADMM_FUNCTIONCODE_PEAK_HOLD_UA : Nat := 0x3e
def APPADMM_FUNCTIONCODE_AC_UA_HFR : Nat := 0x3f
def APPADMM_FUNCTIONCODE_AC_V_HFR : Nat := 0x40
def APPADMM_FUNCTIONCODE_AC_MV_HFR : Nat := 0x41
def APPADMM_FUNCTIONCODE_AC_A_HFR : Nat := 0x42
def APPADMM_FUNCTIONCODE_AC_MA_HFR : Nat := 0x43
def APPADMM_FUNCTIONCODE_AC_UA_HFR2 : Nat := 0x44
def APPADMM_FUNCTIONCODE_DC_V_PV : Nat := 0x45
def APPADMM_FUNCTIONCODE_AC_V_PV : Nat := 0x46
def APPADMM_FUNCTIONCODE_AC_V_PV_HFR : Nat := 0x47
def APPADMM_FUNCTIONCODE_AC_DC_V_PV : Nat := 0x48

/-- The sigrok units assigned by the interpreter (`SR_UNIT_...`). -/
inductive SrUnit where
  | volt | ampere | decibelVolt | decibelMW | farad | ohm | percentage
  | hertz | celsius | fahrenheit | second | watt | unitless
  deriving DecidableEq, Repr

/-- The sigrok measured quantities assigned by the interpreter
(`SR_MQ_...`); `Option.none` models the zero-initialized "no quantity". -/
inductive SrMq where
  | voltage | current | power | capacitance | resistance | difference
  | frequency | temperature | time | powerFactor | continuity | count
  deriving DecidableEq, Repr

/-- The sigrok measurement flags the interpreter sets (`SR_MQFLAG_...`). -/
inductive SrMqFlag where
  | max | min | avg | hold | relative | reference | autorange | ac | dc
  | rms | diode
  deriving DecidableEq, Repr

/-- Measurement value: either a finite number (C `double`/`float`
arithmetic modelled exactly over `ℚ`; every i24 reading is exactly
representable in `float`) or the `INFINITY` sentinel. -/
inductive SrAnalogValue where
  | finite (q : ℚ)
  | infinity
  deriving DecidableEq, Repr

/-- The analog-measurement fields of `struct sr_datafeed_analog` that
`appadmm_transform_display_data` fills in before handing the packet to the
session sink. -/
structure AnalogMeasurement where
  val : SrAnalogValue
  digits : Int
  unit : Option SrUnit
  mq : Option SrMq
  mqflags : List SrMqFlag
  deriving DecidableEq, Repr

/-- Logical channels (`enum appadmm_channel_e`). -/
inductive appadmm_channel_e where
  | invalid | sample_id | main | sub
  deriving DecidableEq, Repr

/-- The `display_data->dot` switch (protocol.c lines 227-255): digit count
and the accumulated `unit_factor` after its division; `default` and
`APPADMM_DOT_NONE` share the first arm. -/
def appadmm_dot_digits_factor (dot : Nat) : Int × ℚ :=
  if dot = APPADMM_DOT_9999_9 then (1, 1 / 10)
  else if dot = APPADMM_DOT_999_99 then (2, 1 / 100)
  else if dot = APPADMM_DOT_99_999 then (3, 1 / 1000)
  else if dot = APPADMM_DOT_9_9999 then (4, 1 / 10000)
  else (0, 1 / 1)

/-- The `display_data->data_content` switch (protocol.c lines 257-326):
measurement flags, some attributed only on the sub channel; the many
remaining cases fall through to the unused default. -/
def appadmm_data_content_mqflags (dc : Nat) (ch : appadmm_channel_e) :
    List SrMqFlag :=
  if dc = APPADMM_DATA_CONTENT_MAXIMUM then [.max]
  else if dc = APPADMM_DATA_CONTENT_MINIMUM then [.min]
  else if dc = APPADMM_DATA_CONTENT_AVERAGE then [.avg]
  else if dc = APPADMM_DATA_CONTENT_PEAK_HOLD_MAX then
    [.max] ++ (if ch = .sub then [.hold] else [])
  else if dc = APPADMM_DATA_CONTENT_PEAK_HOLD_MIN then
    [.min] ++ (if ch = .sub then [.hold] else [])
  else if dc = APPADMM_DATA_CONTENT_AUTO_HOLD then
    (if ch = .sub then [.hold] else [])
  else if dc = APPADMM_DATA_CONTENT_HOLD then
    (if ch = .sub then [.hold] else [])
  else if dc = APPADMM_DATA_CONTENT_REL_DELTA
      ∨ dc = APPADMM_DATA_CONTENT_REL_PERCENT then
    (if ch ≠ .sub then [.relative] else [.reference])
  else []

/-- The `display_data->unit` switch (protocol.c lines 331-502): sigrok
unit, quantity, and the per-unit adjustment applied to the running
`unit_factor` and `digits`; `default` and `APPADMM_UNIT_NONE` set the
unitless unit and leave everything else alone. -/
def appadmm_unit_meaning (u : Nat) (unit_factor : ℚ) (digits : Int) :
    Option SrUnit × Option SrMq × ℚ × Int :=
  if u = APPADMM_UNIT_MV then
    (some .volt, some .voltage, unit_factor / 1000, digits + 3)
  else if u = APPADMM_UNIT_V then (some .volt, some .voltage, unit_factor, digits)
  else if u = APPADMM_UNIT_UA then
    (some .ampere, some .current, unit_factor / 1000000, digits + 6)
  else if u = APPADMM_UNIT_MA then
    (some .ampere, some .current, unit_factor / 1000, digits + 3)
  else if u = APPADMM_UNIT_A then
    (some .ampere, some .current, unit_factor, digits)
  else if u = APPADMM_UNIT_DB then
    (some .decibelVolt, some .power, unit_factor, digits)
  else if u = APPADMM_UNIT_DBM then
    (some .decibelMW, some .power, unit_factor, digits)
  else if u = APPADMM_UNIT_NF then
    (some .farad, some .capacitance, unit_factor / 1000000000, digits + 9)
  else if u = APPADMM_UNIT_UF then
    (some .farad, some .capacitance, unit_factor / 1000000, digits + 6)
  else if u = APPADMM_UNIT_MF then
    (some .farad, some .capacitance, unit_factor / 1000, digits + 3)
  else if u = APPADMM_UNIT_GOHM then
    (some .ohm, some .resistance, unit_factor * 1000000000, digits - 9)
  else if u = APPADMM_UNIT_MOHM then
    (some .ohm, some .resistance, unit_factor * 1000000, digits - 6)
  else if u = APPADMM_UNIT_KOHM then
    (some .ohm, some .resistance, unit_factor * 1000, digits - 3)
  else if u = APPADMM_UNIT_OHM then
    (some .ohm, some .resistance, unit_factor, digits)
  else if u = APPADMM_UNIT_PERCENT then
    (some .percentage, some .difference, unit_factor, digits)
  else if u = APPADMM_UNIT_MHZ then
    (some .hertz, some .frequency, unit_factor * 1000000, digits - 6)
  else if u = APPADMM_UNIT_KHZ then
    (some .hertz, some .frequency, unit_factor * 1000, digits - 3)
  else if u = APPADMM_UNIT_HZ then
    (some .hertz, some .frequency, unit_factor, digits)
  else if u = APPADMM_UNIT_DEGC then
    (some .celsius, some .temperature, unit_factor, digits)
  else if u = APPADMM_UNIT_DEGF then
    (some .fahrenheit, some .temperature, unit_factor, digits)
  else if u = APPADMM_UNIT_NS then
    (some .second, some .time, unit_factor / 1000000000, digits + 9)
  else if u = APPADMM_UNIT_US then
    (some .second, some .time, unit_factor / 1000000, digits + 6)
  else if u = APPADMM_UNIT_MS then
    (some .second, some .time, unit_factor / 1000, digits + 3)
  else if u = APPADMM_UNIT_SEC then
    (some .second, some .time, unit_factor, digits)
  else if u = APPADMM_UNIT_MIN then
    (some .second, some .time, unit_factor * 60, digits)
  else if u = APPADMM_UNIT_KW then
    (some .watt, some .power, unit_factor * 1000, digits - 3)
  else if u = APPADMM_UNIT_PF then
    (some .unitless, some .powerFactor, unit_factor, digits)
  else
    (some .unitless, none, unit_factor, digits)

/-- The `arg_data->function_code` switch (protocol.c lines 504-610): may
add AC/DC/RMS/DIODE flags (gated on the unit being Ampere/Volt/Watt for
the AC and AC+DC groups) or force the continuity quantity; the long final
group of cases is a no-op.  (`FLEX_AC_A` sits in the source's DC group.) -/
def appadmm_function_code_effect (fc : Nat) (unit? : Option SrUnit)
    (mq? : Option SrMq) (mqflags : List SrMqFlag) :
    Option SrMq × List SrMqFlag :=
  if fc ∈ [APPADMM_FUNCTIONCODE_PEAK_HOLD_UA, APPADMM_FUNCTIONCODE_AC_UA,
      APPADMM_FUNCTIONCODE_AC_MV, APPADMM_FUNCTIONCODE_AC_MA,
      APPADMM_FUNCTIONCODE_LPF_MV, APPADMM_FUNCTIONCODE_LPF_MA,
      APPADMM_FUNCTIONCODE_AC_V, APPADMM_FUNCTIONCODE_AC_A,
      APPADMM_FUNCTIONCODE_LPF_V, APPADMM_FUNCTIONCODE_LPF_A,
      APPADMM_FUNCTIONCODE_LOZ_AC_V, APPADMM_FUNCTIONCODE_AC_W,
      APPADMM_FUNCTIONCODE_LOZ_LPF_V, APPADMM_FUNCTIONCODE_V_HARM,
      APPADMM_FUNCTIONCODE_INRUSH, APPADMM_FUNCTIONCODE_A_HARM,
      APPADMM_FUNCTIONCODE_FLEX_INRUSH, APPADMM_FUNCTIONCODE_FLEX_A_HARM,
      APPADMM_FUNCTIONCODE_AC_UA_HFR, APPADMM_FUNCTIONCODE_AC_A_HFR,
      APPADMM_FUNCTIONCODE_AC_MA_HFR, APPADMM_FUNCTIONCODE_AC_UA_HFR2,
      APPADMM_FUNCTIONCODE_AC_V_HFR, APPADMM_FUNCTIONCODE_AC_MV_HFR,
      APPADMM_FUNCTIONCODE_AC_V_PV, APPADMM_FUNCTIONCODE_AC_V_PV_HFR] then
    (mq?, mqflags ++
      (if unit? = some .ampere ∨ unit? = some .volt ∨ unit? = some .watt then
        [.ac, .rms] else []))
  else if fc ∈ [APPADMM_FUNCTIONCODE_DC_UA, APPADMM_FUNCTIONCODE_DC_MV,
      APPADMM_FUNCTIONCODE_DC_MA, APPADMM_FUNCTIONCODE_DC_V,
      APPADMM_FUNCTIONCODE_DC_A, APPADMM_FUNCTIONCODE_DC_A_OUT,
      APPADMM_FUNCTIONCODE_DC_A_OUT_SLOW_LINEAR,
      APPADMM_FUNCTIONCODE_DC_A_OUT_FAST_LINEAR,
      APPADMM_FUNCTIONCODE_DC_A_OUT_SLOW_STEP,
      APPADMM_FUNCTIONCODE_DC_A_OUT_FAST_STEP,
      APPADMM_FUNCTIONCODE_LOOP_POWER, APPADMM_FUNCTIONCODE_LOZ_DC_V,
      APPADMM_FUNCTIONCODE_DC_W, APPADMM_FUNCTIONCODE_FLEX_AC_A,
      APPADMM_FUNCTIONCODE_FLEX_LPF_A, APPADMM_FUNCTIONCODE_FLEX_PEAK_HOLD_A,
      APPADMM_FUNCTIONCODE_DC_V_PV] then
    (mq?, mqflags ++ [.dc])
  else if fc = APPADMM_FUNCTIONCODE_CONTINUITY then
    (some .continuity, mqflags)
  else if fc = APPADMM_FUNCTIONCODE_DIODE then
    (mq?, mqflags ++ [.diode, .dc])
  else if fc ∈ [APPADMM_FUNCTIONCODE_AC_DC_MV, APPADMM_FUNCTIONCODE_AC_DC_MA,
      APPADMM_FUNCTIONCODE_AC_DC_V, APPADMM_FUNCTIONCODE_AC_DC_A,
      APPADMM_FUNCTIONCODE_VOLT_SENSE, APPADMM_FUNCTIONCODE_LOZ_AC_DC_V,
      APPADMM_FUNCTIONCODE_AC_DC_V_PV] then
    (mq?, mqflags ++
      (if unit? = some .ampere ∨ unit? = some .volt ∨ unit? = some .watt then
        [.ac, .dc, .rms] else []))
  else
    (mq?, mqflags)

/-- `appadmm_transform_display_data` (protocol.c lines 163-694) as a pure
function from the decoded Read Display response, the channel and the
context's `sample_id` to the analog-measurement record dispatched to the
session (the word-code log messages, a pure side effect, are not part of
the record).  The sequence mirrors the source: pick the display record by
channel; non-word-code readings and the dash sentinels take the numeric
path — dot switch, data-content flags, autorange flag, unit switch,
function-code switch, digits assignment, then the value
`reading * unit_factor`, replaced by `INFINITY` on overload or dash; other
word-codes yield the `INFINITY` value with the zero-initialized meaning
fields. -/
def appadmm_transform_display_data (sample_id : Int)
    (arg_channel : appadmm_channel_e)
    (arg_data : appadmm_response_data_read_display_s) :
    Except Int AnalogMeasurement :=
  match arg_channel with
  | .invalid => .error SR_ERR_BUG
  | .sample_id =>
    .ok { val := .finite (sample_id : ℚ), digits := 0,
          unit := some .unitless, mq := some .count, mqflags := [] }
  | .main | .sub =>
    let display_data := match arg_channel with
      | .main => arg_data.main_display_data
      | _ => arg_data.sub_display_data
    let is_dash := appadmm_is_wordcode_dash display_data.reading
    if !appadmm_is_wordcode display_data.reading || is_dash then
      let dot_df := appadmm_dot_digits_factor display_data.dot
      let flags0 := appadmm_data_content_mqflags display_data.data_content
        arg_channel
      let flags1 := flags0 ++
        (if arg_data.auto_range = APPADMM_AUTO_RANGE then [.autorange] else [])
      let um := appadmm_unit_meaning display_data.unit dot_df.2 dot_df.1
      let fce := appadmm_function_code_effect arg_data.function_code
        um.1 um.2.1 flags1
      .ok { val := if display_data.overload = APPADMM_OVERLOAD ∨ is_dash = true
              then .infinity
              else .finite ((display_data.reading : ℚ) * um.2.2.1)
            digits := um.2.2.2
            unit := um.1
            mq := fce.1
            mqflags := fce.2 }
    else
      .ok { val := .infinity, digits := 0, unit := none, mq := none,
            mqflags := [] }

/-- The claim's dot table: dot 0..4 divide the value by 1, 10, 100, 1000,
10000 with digit counts 0..4 respectively (anything else: no scaling). -/
def spec_dot_scale (dot : Nat) : ℚ × Int :=
  if dot ≤ 4 then (1 / 10 ^ dot, (dot : Int)) else (1, 0)

/-- The claim's per-unit adjustment table: scale multiplier and digit
delta folded into the dot-derived factor (units absent from the table are
unscaled). -/
def spec_unit_scale_adjust (u : Nat) : ℚ × Int :=
  if u = APPADMM_UNIT_MV ∨ u = APPADMM_UNIT_MA ∨ u = APPADMM_UNIT_MF
      ∨ u = APPADMM_UNIT_MS then (1 / 1000, 3)
  else if u = APPADMM_UNIT_UA ∨ u = APPADMM_UNIT_UF ∨ u = APPADMM_UNIT_US then
    (1 / 1000000, 6)
  else if u = APPADMM_UNIT_NF ∨ u = APPADMM_UNIT_NS then (1 / 1000000000, 9)
  else if u = APPADMM_UNIT_GOHM then (1000000000, -9)
  else if u = APPADMM_UNIT_MOHM ∨ u = APPADMM_UNIT_MHZ then (1000000, -6)
  else if u = APPADMM_UNIT_KOHM ∨ u = APPADMM_UNIT_KHZ ∨ u = APPADMM_UNIT_KW then
    (1000, -3)
  else if u = APPADMM_UNIT_MIN then (60, 0)
  else (1, 0)

/-- The claim's combined scale factor for a dot/unit pair. -/
def spec_display_unit_factor (dot u : Nat) : ℚ :=
  (spec_dot_scale dot).1 * (spec_unit_scale_adjust u).1

/-- The claim's combined digit count for a dot/unit pair. -/
def spec_display_digits (dot u : Nat) : Int :=
  (spec_dot_scale dot).2 + (spec_unit_scale_adjust u).2


/-- The source's dot switch produces exactly the claim's dot table (source
default arm and dot positions above 4 agree on "no scaling"). -/
theorem appadmm_dot_eq (dot : Nat) :
    (appadmm_dot_digits_factor dot).2 = (spec_dot_scale dot).1
    ∧ (appadmm_dot_digits_factor dot).1 = (spec_dot_scale dot).2 := by
  unfold appadmm_dot_digits_factor spec_dot_scale
  simp only [APPADMM_DOT_9999_9, APPADMM_DOT_999_99, APPADMM_DOT_99_999,
    APPADMM_DOT_9_9999]
  rcases Nat.lt_or_ge dot 5 with h | h
  · interval_cases dot <;> norm_num
  · rw [if_neg (by omega), if_neg (by omega), if_neg (by omega),
      if_neg (by omega), if_neg (by omega)]
    norm_num

/-- The source's unit switch folds exactly the claim's per-unit scale
multiplier and digit delta into the running factor and digit count, for
every decoded unit (a 5-bit field). -/
theorem appadmm_unit_factor_eq (u : Nat) (hu : u < 32) (q : ℚ) (d : Int) :
    (appadmm_unit_meaning u q d).2.2.1 = q * (spec_unit_scale_adjust u).1
    ∧ (appadmm_unit_meaning u q d).2.2.2 = d + (spec_unit_scale_adjust u).2 := by
  interval_cases u <;> refine ⟨?_, ?_⟩ <;>
    norm_num [appadmm_unit_meaning, spec_unit_scale_adjust,
      APPADMM_UNIT_NONE, APPADMM_UNIT_V, APPADMM_UNIT_MV,
      APPADMM_UNIT_A, APPADMM_UNIT_MA, APPADMM_UNIT_DB, APPADMM_UNIT_DBM,
      APPADMM_UNIT_MF, APPADMM_UNIT_UF, APPADMM_UNIT_NF, APPADMM_UNIT_GOHM,
      APPADMM_UNIT_MOHM, APPADMM_UNIT_KOHM, APPADMM_UNIT_OHM,
      APPADMM_UNIT_PERCENT, APPADMM_UNIT_MHZ, APPADMM_UNIT_KHZ,
      APPADMM_UNIT_HZ, APPADMM_UNIT_DEGC, APPADMM_UNIT_DEGF,
      APPADMM_UNIT_SEC, APPADMM_UNIT_MS, APPADMM_UNIT_US, APPADMM_UNIT_NS,
      APPADMM_UNIT_UA, APPADMM_UNIT_MIN, APPADMM_UNIT_KW, APPADMM_UNIT_PF] <;>
    ring

/-- Composition of the two switch lemmas: the factor and digit count the
interpreter accumulates for a dot/unit pair are the claim's table values. -/
theorem appadmm_scale_eq_spec (dot u : Nat) (hu : u < 32) :
    (appadmm_unit_meaning u (appadmm_dot_digits_factor dot).2
        (appadmm_dot_digits_factor dot).1).2.2.1
      = spec_display_unit_factor dot u
    ∧ (appadmm_unit_meaning u (appadmm_dot_digits_factor dot).2
        (appadmm_dot_digits_factor dot).1).2.2.2
      = spec_display_digits dot u := by
  obtain ⟨hf, hd⟩ := appadmm_dot_eq dot
  obtain ⟨hf2, hd2⟩ := appadmm_unit_factor_eq u hu
    (appadmm_dot_digits_factor dot).2 (appadmm_dot_digits_factor dot).1
  constructor
  · rw [hf2, hf]; rfl
  · rw [hd2, hd]; rfl

/-! ## Claims C6-C7: the display value -/

/-- C6 counterexample: the claim asserts the emitted value equals
`reading * unit_factor` also for the three dash sentinels, but on a dash
reading (`0x700014`, dot 0, unit none, overload clear, main display) the
interpreter emits `INFINITY`, not the scaled reading. -/
theorem C6_dash_value_counterexample :
    appadmm_transform_display_data 0 .main
        ⟨0, 0, 0, 0, ⟨APPADMM_WORDCODE_DASH, 0, 0, 0, 0⟩, ⟨0, 0, 0, 0, 0⟩⟩
      = .ok { val := .infinity, digits := 0, unit := some .unitless,
              mq := none, mqflags := [] }
    ∧ SrAnalogValue.infinity
        ≠ .finite ((APPADMM_WORDCODE_DASH : ℚ)
            * spec_display_unit_factor 0 0) :=
  ⟨rfl, by decide⟩

/-- C6 (amended): for every non-word-code display reading and for the
three dash sentinels, the interpreter derives the scale factor and digit
count from the dot position and folds in the per-unit adjustment exactly
as the claimed tables; the emitted value equals `reading * unit_factor`
whenever the overload flag is clear and the reading is not a dash
sentinel, and is `INFINITY` otherwise. -/
theorem C6_unit_scaling_amended (sample_id : Int) (ch : appadmm_channel_e)
    (rd : appadmm_response_data_read_display_s) (dd : appadmm_display_data_s)
    (hch : ch = .main ∧ dd = rd.main_display_data
      ∨ ch = .sub ∧ dd = rd.sub_display_data)
    (hnum : (!appadmm_is_wordcode dd.reading
      || appadmm_is_wordcode_dash dd.reading) = true)
    (hunit : dd.unit < 32) :
    (appadmm_transform_display_data sample_id ch rd).map
        AnalogMeasurement.digits
      = .ok (spec_display_digits dd.dot dd.unit)
    ∧ (appadmm_transform_display_data sample_id ch rd).map
        AnalogMeasurement.val
      = .ok (if dd.overload = APPADMM_OVERLOAD
            ∨ appadmm_is_wordcode_dash dd.reading = true then .infinity
          else .finite ((dd.reading : ℚ)
            * spec_display_unit_factor dd.dot dd.unit)) := by
  rcases hch with ⟨h, hdd⟩ | ⟨h, hdd⟩ <;> subst h <;>
    (simp only [appadmm_transform_display_data]; rw [← hdd, if_pos hnum];
     refine ⟨?_, ?_⟩ <;> simp only [Except.map])
  · exact congrArg Except.ok (appadmm_scale_eq_spec dd.dot dd.unit hunit).2
  · rw [(appadmm_scale_eq_spec dd.dot dd.unit hunit).1]
  · exact congrArg Except.ok (appadmm_scale_eq_spec dd.dot dd.unit hunit).2
  · rw [(appadmm_scale_eq_spec dd.dot dd.unit hunit).1]

/-- Witness for C6 (amended) at a concrete input: main display, reading
1234, dot 3 (`99.999`), unit kΩ, overload clear — the claimed tables give
factor `(1/1000) * 1000 = 1` and digits `3 - 3 = 0`. -/
theorem C6_unit_scaling_amended_witness :
    (appadmm_transform_display_data 0 .main
        ⟨0, 0, 0, 0, ⟨1234, 3, 0x0c, 0, 0⟩, ⟨0, 0, 0, 0, 0⟩⟩).map
        AnalogMeasurement.digits
      = .ok (spec_display_digits 3 0x0c)
    ∧ (appadmm_transform_display_data 0 .main
        ⟨0, 0, 0, 0, ⟨1234, 3, 0x0c, 0, 0⟩, ⟨0, 0, 0, 0, 0⟩⟩).map
        AnalogMeasurement.val
      = .ok (if (0 : Nat) = APPADMM_OVERLOAD
            ∨ appadmm_is_wordcode_dash 1234 = true then .infinity
          else .finite ((1234 : ℚ) * spec_display_unit_factor 3 0x0c)) :=
  C6_unit_scaling_amended 0 .main
    ⟨0, 0, 0, 0, ⟨1234, 3, 0x0c, 0, 0⟩, ⟨0, 0, 0, 0, 0⟩⟩
    ⟨1234, 3, 0x0c, 0, 0⟩ (Or.inl ⟨rfl, rfl⟩) (by decide) (by decide)

/-- C7: whenever the overload flag of the selected display record is set,
or its reading is one of the three dash sentinels `0x700014`, `0x700015`,
`0x700017`, the interpreter emits the value `INFINITY` — for every unit,
dot and remaining field combination. -/
theorem C7_overload_dash_infinity (sample_id : Int) (ch : appadmm_channel_e)
    (rd : appadmm_response_data_read_display_s) (dd : appadmm_display_data_s)
    (hch : ch = .main ∧ dd = rd.main_display_data
      ∨ ch = .sub ∧ dd = rd.sub_display_data)
    (hcond : dd.overload = APPADMM_OVERLOAD
      ∨ dd.reading = APPADMM_WORDCODE_DASH
      ∨ dd.reading = APPADMM_WORDCODE_DASH1
      ∨ dd.reading = APPADMM_WORDCODE_DASH2) :
    (appadmm_transform_display_data sample_id ch rd).map AnalogMeasurement.val
      = .ok .infinity := by
  have hdash : dd.overload = APPADMM_OVERLOAD
      ∨ appadmm_is_wordcode_dash dd.reading = true := by
    rcases hcond with h | h | h | h
    · exact Or.inl h
    all_goals
      refine Or.inr ?_
      rw [h]
      decide
  rcases hch with ⟨h, hdd⟩ | ⟨h, hdd⟩ <;> subst h <;>
    (simp only [appadmm_transform_display_data]; rw [← hdd]) <;>
    by_cases hw : (!appadmm_is_wordcode dd.reading
      || appadmm_is_wordcode_dash dd.reading) = true
  all_goals
    first
      | (rw [if_pos hw]; simp only [Except.map]; rw [if_pos hdash])
      | (rw [if_neg hw]; simp only [Except.map])

/-- Witness for C7: main display with the overload flag set and a plain
numeric reading yields the `INFINITY` value. -/
theorem C7_overload_dash_infinity_witness :
    (appadmm_transform_display_data 0 .main
        ⟨0, 0, 0, 0, ⟨5, 0, 0, 0, 1⟩, ⟨0, 0, 0, 0, 0⟩⟩).map
        AnalogMeasurement.val
      = .ok .infinity :=
  C7_overload_dash_infinity 0 .main
    ⟨0, 0, 0, 0, ⟨5, 0, 0, 0, 1⟩, ⟨0, 0, 0, 0, 0⟩⟩
    ⟨5, 0, 0, 0, 1⟩ (Or.inl ⟨rfl, rfl⟩) (Or.inl rfl)

/-! ## Storage read-request encoder (packet.h lines 535-618) -/

/-- `struct appadmm_storage_info_s`: addressable layout of one onboard
storage kind (fields as populated by `appadmm_dec_storage_info`,
packet.h lines 535-566). -/
structure appadmm_storage_info_s where
  rate : Int
  amount : Int
  entry_size : Int
  entry_count : Int
  mem_offset : Int
  mem_count : Int
  deriving DecidableEq, Repr

/-- Modelled from the spec: `struct appadmm_request_data_read_memory_s` is
not among the provided sources; per the spec the Read Memory request
payload is `{device_number: u8, memory_address: u16le, data_length: u8}`.
The fields hold the integer values the encoder assigns. -/
structure appadmm_request_data_read_memory_s where
  device_number : Int
  memory_address : Int
  data_length : Int
  deriving DecidableEq, Repr

/-- The `while (data_length > SR_TP_APPA_MAX_DATA_SIZE) data_length -=
entry_size` loop of `appadmm_enc_read_storage` (packet.h lines 601-602).
The C loop never terminates when `entry_size ≤ 0`; the model returns the
length unchanged there (unreachable for the fixed storage tables, whose
entry size is 5, and the encoder overwrites the result anyway). -/
def appadmm_storage_length_reduce (data_length entry_size : Int) : Int :=
  if 0 < entry_size ∧ (SR_TP_APPA_MAX_DATA_SIZE : Int) < data_length then
    appadmm_storage_length_reduce (data_length - entry_size) entry_size
  else data_length
termination_by (data_length - SR_TP_APPA_MAX_DATA_SIZE).toNat
decreasing_by
  simp only [SR_TP_APPA_MAX_DATA_SIZE] at *
  omega

/-- `appadmm_enc_read_storage` (packet.h lines 568-618).  C integer
division and modulo are rendered with `Int.tdiv`/`Int.tmod` (truncation
toward zero); all quantities in the claims are non-negative, where every
division convention agrees.  After clamping the entry count to the payload
capacity and the storage page, the function assigns
`device_number = start_entry / entry_count`,
`memory_address = mem_offset + (start_entry % entry_count) * entry_size`
and a `data_length` that line 608 then unconditionally overwrites with
64. -/
def appadmm_enc_read_storage (arg_storage_info : appadmm_storage_info_s)
    (arg_start_entry arg_entry_count : Int) :
    Except Int appadmm_request_data_read_memory_s :=
  if arg_start_entry >
      arg_storage_info.mem_count * arg_storage_info.entry_count then
    .error SR_ERR_ARG
  else
    let address_position :=
      Int.tmod arg_start_entry arg_storage_info.entry_count
    let entry_count1 :=
      if arg_entry_count >
          Int.tdiv (SR_TP_APPA_MAX_DATA_SIZE : Int) arg_storage_info.entry_size
      then Int.tdiv (SR_TP_APPA_MAX_DATA_SIZE : Int) arg_storage_info.entry_size
      else arg_entry_count
    let entry_count2 :=
      if address_position + entry_count1 > arg_storage_info.entry_count
      then arg_storage_info.entry_count - address_position
      else entry_count1
    let device_number :=
      Int.tdiv arg_start_entry arg_storage_info.entry_count
    let memory_address := arg_storage_info.mem_offset
      + address_position * arg_storage_info.entry_size
    let _data_length0 := appadmm_storage_length_reduce
      (entry_count2 * arg_storage_info.entry_size) arg_storage_info.entry_size
    if device_number > arg_storage_info.mem_count then
      .error SR_ERR_BUG
    else
      .ok { device_number := device_number
            memory_address := memory_address
            -- packet.h line 608 overwrites the clamped length with 64
            data_length := 64 }

/-! ## Claim C9: storage paging -/

/-- C9 counterexample: for the MEM storage table
`{entry_size = 5, entry_count = 500, mem_offset = 0x500, mem_count = 2}`,
encoding a storage read at `start_entry = 501` (requesting 12 entries)
gives `device_number = 1` and `memory_address = 0x505` as claimed, but
`data_length = 64` — which is not a multiple of the 5-byte entry size, so
the claimed "multiple of 5 not exceeding 64" fails. -/
theorem C9_storage_paging_counterexample :
    appadmm_enc_read_storage ⟨0, 0, 5, 500, 0x500, 2⟩ 501 12
      = .ok ⟨1, 0x505, 64⟩
    ∧ ¬ ((5 : Int) ∣ 64) :=
  ⟨rfl, by decide⟩

/-- C9 (amended): for the MEM storage table and `start_entry = 501`, the
encoder produces `device_number = 1` and `memory_address = 0x500 +
(501 % 500) * 5 = 0x505`, and sets `data_length = 64` unconditionally (the
multiple-of-entry-size clamp is computed and then overwritten with the
maximum payload size), for every requested entry count. -/
theorem C9_storage_paging_amended (arg_entry_count : Int) :
    appadmm_enc_read_storage ⟨0, 0, 5, 500, 0x500, 2⟩ 501 arg_entry_count
      = .ok ⟨1, 0x505, 64⟩ := rfl
